import Mathlib

/-!
Verification of the NeuroAura sensor-watcher / event-store core.

The embedding follows the TypeScript source:
* `context/UserContext.tsx` — the Event Store (`UserProvider`): profile,
  check-in log, alert log, and the operations `setProfile`, `addCheckIn`,
  `logAlertEvent`.
* `App.tsx` — the three global watchers `GlobalShakeWatcher`,
  `GlobalNoiseWatcher`, `GlobalLightWatcher`: per-sample trigger guards
  (threshold plus cooldown timestamp), the store writes and notification
  requests they make on trigger.
* `screens/MoodOverviewScreen.tsx` — the `isSensorLike` heuristic that
  classifies a check-in as sensor-originated from its symptom text.

Nondeterministic runtime inputs (`Date.now()`, the random id suffix, the
sensor readings, and whether `Notifications.scheduleNotificationAsync`
resolves or rejects) are passed as explicit parameters. Timestamps are
epoch milliseconds as `Nat`; sensor levels are `ℚ` (the accelerometer
magnitude `Math.sqrt(x*x+y*y+z*z)` is taken as the sample input, so the
guards compare the same number the code compares).
-/

namespace NeuroAura

/-- The closed set of mood strings of the `MoodType` union in
`context/UserContext.tsx` (note the last variant is spelled `idk`). -/
def moodTypeStrings : List String :=
  ["calm", "okay", "overwhelmed", "angry", "sad", "idk"]

/-- The closed set the spec's §3 gives for the mood field, following the
spec's words (`calm, okay, overwhelmed, angry, sad, unknown`); kept
separate from `moodTypeStrings` so the two can be compared. -/
def specMoodStrings : List String :=
  ["calm", "okay", "overwhelmed", "angry", "sad", "unknown"]

/-- The `AlertEventType` union of `context/UserContext.tsx`. -/
def alertEventTypeStrings : List String :=
  ["shake", "noise_high", "light_high", "manual_high_risk"]

/-- The `UserProfile` interface of `context/UserContext.tsx`. -/
structure UserProfile where
  name : String
  email : String
  role : String
deriving Repr, DecidableEq

/-- The `CheckIn` interface of `context/UserContext.tsx`. -/
structure CheckIn where
  id : String
  timestamp : Nat
  mood : String
  symptoms : List String
deriving Repr, DecidableEq

/-- The `AlertEvent` interface of `context/UserContext.tsx`. -/
structure AlertEvent where
  id : String
  type : String
  message : String
  timestamp : Nat
deriving Repr, DecidableEq

/-- The state held by `UserProvider` in `context/UserContext.tsx`:
`profile`, `checkIns`, `alerts`. -/
structure Store where
  profile : Option UserProfile
  checkIns : List CheckIn
  alerts : List AlertEvent
deriving Repr, DecidableEq

/-- The initial provider state: `useState(null)`, `useState([])`,
`useState([])`. -/
def Store.empty : Store := ⟨none, [], []⟩

/-- The check-in entry built inside `addCheckIn`; `id` stands for the
`Date.now()`-plus-random string and `now` for `Date.now()`. -/
def mkCheckIn (id : String) (now : Nat) (mood : String)
    (symptoms : List String) : CheckIn :=
  ⟨id, now, mood, symptoms⟩

/-- The `addCheckIn` operation: builds an entry and prepends it,
`setCheckIns (prev => [entry, ...prev])`. -/
def addCheckIn (st : Store) (id : String) (now : Nat) (mood : String)
    (symptoms : List String) : Store :=
  { st with checkIns := mkCheckIn id now mood symptoms :: st.checkIns }

/-- The alert event built inside `logAlertEvent`. -/
def mkAlertEvent (id : String) (now : Nat) (ty msg : String) : AlertEvent :=
  ⟨id, ty, msg, now⟩

/-- The `logAlertEvent` operation: builds an event and prepends it,
`setAlerts (prev => [evt, ...prev])`. -/
def logAlertEvent (st : Store) (id : String) (now : Nat)
    (ty msg : String) : Store :=
  { st with alerts := mkAlertEvent id now ty msg :: st.alerts }

/-- The `setProfile` operation: replaces the profile unconditionally. -/
def setProfile (st : Store) (p : Option UserProfile) : Store :=
  { st with profile := p }

/-- One `addCheckIn` call with its runtime inputs. -/
structure CheckInCall where
  id : String
  now : Nat
  mood : String
  symptoms : List String
deriving Repr, DecidableEq

/-- Runs a sequence of `addCheckIn` calls in order. -/
def runAddCheckIns (st : Store) : List CheckInCall → Store
  | [] => st
  | c :: rest => runAddCheckIns (addCheckIn st c.id c.now c.mood c.symptoms) rest

/-- One `logAlertEvent` call with its runtime inputs. -/
structure AlertCall where
  id : String
  now : Nat
  ty : String
  msg : String
deriving Repr, DecidableEq

/-- Runs a sequence of `logAlertEvent` calls in order. -/
def runLogAlertEvents (st : Store) : List AlertCall → Store
  | [] => st
  | c :: rest => runLogAlertEvents (logAlertEvent st c.id c.now c.ty c.msg) rest

/-- Any single Event Store operation, for sequences mixing the three. -/
inductive StoreOp where
  | checkIn (id : String) (now : Nat) (mood : String) (symptoms : List String)
  | alert (id : String) (now : Nat) (ty msg : String)
  | profile (p : Option UserProfile)
deriving Repr, DecidableEq

/-- Applies one store operation. -/
def applyOp (st : Store) : StoreOp → Store
  | .checkIn id now mood syms => addCheckIn st id now mood syms
  | .alert id now ty msg => logAlertEvent st id now ty msg
  | .profile p => setProfile st p

/-- Runs a sequence of store operations in order. -/
def runOps (st : Store) : List StoreOp → Store
  | [] => st
  | op :: rest => runOps (applyOp st op) rest

/-- Holds when a `checkIn` operation passes a mood belonging to the code's
`MoodType` union, as the TypeScript type of `addCheckIn` enforces
statically; other operations are unconstrained. -/
def opMoodOk : StoreOp → Bool
  | .checkIn _ _ mood _ => moodTypeStrings.contains mood
  | _ => true

/-- The `SHAKE_THRESHOLD` constant of `GlobalShakeWatcher` (2.3). -/
def SHAKE_THRESHOLD : ℚ := 23 / 10

/-- The shake `COOLDOWN_MS` constant (6000 ms). -/
def SHAKE_COOLDOWN_MS : Nat := 6000

/-- The `VERY_LOUD_THRESHOLD` constant of `GlobalNoiseWatcher` (-12). -/
def VERY_LOUD_THRESHOLD : ℚ := -12

/-- The noise `COOLDOWN_MS` constant (5 minutes). -/
def NOISE_COOLDOWN_MS : Nat := 5 * 60 * 1000

/-- The `VERY_BRIGHT_THRESHOLD` constant of `GlobalLightWatcher` (0.85). -/
def VERY_BRIGHT_THRESHOLD : ℚ := 85 / 100

/-- The light `COOLDOWN_MS` constant (5 minutes). -/
def LIGHT_COOLDOWN_MS : Nat := 5 * 60 * 1000

/-- One `Notifications.scheduleNotificationAsync` request, identified by
its `data.type` payload and its trigger (`none` = immediate `trigger:
null`, `some s` = `trigger: \x7b seconds: s \x7d`). -/
structure NotificationRequest where
  dataType : String
  delaySeconds : Option Nat
deriving Repr, DecidableEq

/-- The result of one watcher sampling step: the store after any writes,
the updated last-trigger timestamp, the notification requests issued, and
the console warnings emitted by the `.catch` handlers. -/
structure WatcherOutput where
  store : Store
  last : Nat
  notifications : List NotificationRequest
  warnings : List String
deriving Repr, DecidableEq

/-- The symptom list the shake watcher passes to `addCheckIn`. -/
def shakeSymptoms : List String :=
  ["Phone shaken hard", "Possible anger / overload moment"]

/-- The message the shake watcher passes to `logAlertEvent`. -/
def shakeAlertMessage : String :=
  "Strong phone movement detected (possible anger / overload)."

/-- One accelerometer-listener callback of `GlobalShakeWatcher`.
`total` is the vector magnitude of the sample, `lastShakeTime` the
closure variable of the same name (initially 0), `now` is `Date.now()`,
`idC`/`idA` the ids the store will mint, and `notifyOk` whether the
notification promise resolves (its rejection is caught and warned). -/
def shakeStep (st : Store) (lastShakeTime now : Nat) (total : ℚ)
    (idC idA : String) (notifyOk : Bool) : WatcherOutput :=
  if SHAKE_THRESHOLD < total ∧ SHAKE_COOLDOWN_MS < now - lastShakeTime then
    { store := logAlertEvent (addCheckIn st idC now "angry" shakeSymptoms)
        idA now "shake" shakeAlertMessage
      last := now
      notifications := [⟨"high_risk_shake", none⟩]
      warnings :=
        if notifyOk then [] else ["Failed to schedule shake notification:"] }
  else
    { store := st, last := lastShakeTime, notifications := [], warnings := [] }

/-- The symptom list the noise watcher passes to `addCheckIn`. -/
def noiseSymptoms : List String :=
  ["Very loud environment", "Possible sound overload moment"]

/-- The message the noise watcher passes to `logAlertEvent`. -/
def noiseAlertMessage : String :=
  "Very loud environment detected (noise overload risk)."

/-- One sampling-window evaluation of `GlobalNoiseWatcher`: the code after
a ~2.5 s metered recording window, with `maxLevel` the metered peak,
`lastNoiseAlert` the closure variable (initially 0), and `notifyOk` /
`followupOk` whether the two notification promises resolve. -/
def noiseStep (st : Store) (lastNoiseAlert now : Nat) (maxLevel : ℚ)
    (idC idA : String) (notifyOk followupOk : Bool) : WatcherOutput :=
  if VERY_LOUD_THRESHOLD < maxLevel ∧ NOISE_COOLDOWN_MS < now - lastNoiseAlert then
    { store := logAlertEvent (addCheckIn st idC now "overwhelmed" noiseSymptoms)
        idA now "manual_high_risk" noiseAlertMessage
      last := now
      notifications := [⟨"noise_high", none⟩, ⟨"noise_followup", some 90⟩]
      warnings :=
        (if notifyOk then [] else ["Failed to schedule noise notification:"])
          ++ (if followupOk then []
              else ["Failed to schedule noise follow-up notification:"]) }
  else
    { store := st, last := lastNoiseAlert, notifications := [], warnings := [] }

/-- The symptom list the light watcher passes to `addCheckIn`. -/
def lightSymptoms : List String :=
  ["Very bright screen / light", "Possible light sensitivity trigger"]

/-- The message the light watcher passes to `logAlertEvent`. -/
def lightAlertMessage : String :=
  "Very bright screen / ambient light detected (light overload risk)."

/-- One brightness-read evaluation of `GlobalLightWatcher`: `level` is the
brightness just read, `lastLightAlert` the closure variable (initially 0).
Note the guard is `level >= VERY_BRIGHT_THRESHOLD` in the source. -/
def lightStep (st : Store) (lastLightAlert now : Nat) (level : ℚ)
    (idC idA : String) (notifyOk : Bool) : WatcherOutput :=
  if VERY_BRIGHT_THRESHOLD ≤ level ∧ LIGHT_COOLDOWN_MS < now - lastLightAlert then
    { store := logAlertEvent (addCheckIn st idC now "overwhelmed" lightSymptoms)
        idA now "manual_high_risk" lightAlertMessage
      last := now
      notifications := [⟨"light_high", none⟩]
      warnings :=
        if notifyOk then [] else ["Failed to schedule light notification:"] }
  else
    { store := st, last := lastLightAlert, notifications := [], warnings := [] }

/-- Boolean test that `pat` occurs at the head of `text` (character lists). -/
def charsStartWith : List Char → List Char → Bool
  | [], _ => true
  | _ :: _, [] => false
  | p :: ps, t :: ts => p == t && charsStartWith ps ts

/-- Boolean substring search over character lists. -/
def charsContain (pat : List Char) : List Char → Bool
  | [] => pat.isEmpty
  | t :: ts => charsStartWith pat (t :: ts) || charsContain pat ts

/-- The JavaScript `syms.join(" ")` as a character sequence. -/
def joinSymsChars : List String → List Char
  | [] => []
  | [s] => s.data
  | s :: rest => s.data ++ (' ' :: joinSymsChars rest)

/-- Lowercasing, character-wise (`toLowerCase` on the ASCII text used
here). -/
def lowerChars (l : List Char) : List Char := l.map Char.toLower

/-- The `isSensorLike` heuristic of `screens/MoodOverviewScreen.tsx`:
joins the symptoms with spaces, lowercases, and looks for one of three
sensor-emitted phrases with `includes`. The source first tests
`entry?.source === "sensor"`, which is always false for store entries
since `CheckIn` has no `source` field, so that branch is dropped here. -/
def isSensorLike (entry : CheckIn) : Bool :=
  let text := lowerChars (joinSymsChars entry.symptoms)
  charsContain "phone shaken hard".data text
    || charsContain "very loud environment".data text
    || charsContain "very bright screen".data text

/-- Unfolding lemma: a run of `addCheckIn` calls prepends the built
entries, so the log ends up in reverse call order. -/
theorem runAddCheckIns_checkIns_eq (cs : List CheckInCall) (st : Store) :
    (runAddCheckIns st cs).checkIns
      = (cs.map fun c => mkCheckIn c.id c.now c.mood c.symptoms).reverse
          ++ st.checkIns := by
  induction cs generalizing st with
  | nil => simp [runAddCheckIns]
  | cons c rest ih => simp [runAddCheckIns, ih, addCheckIn]

/-- Unfolding lemma: a run of `logAlertEvent` calls prepends the built
events. -/
theorem runLogAlertEvents_alerts_eq (es : List AlertCall) (st : Store) :
    (runLogAlertEvents st es).alerts
      = (es.map fun c => mkAlertEvent c.id c.now c.ty c.msg).reverse
          ++ st.alerts := by
  induction es generalizing st with
  | nil => simp [runLogAlertEvents]
  | cons c rest ih => simp [runLogAlertEvents, ih, logAlertEvent]

/-- Every element of a list trivially passes an `all` whose test lets
members of that same list through. -/
theorem all_contains_or (l : List CheckIn) (f : CheckIn → Bool) :
    (l.all fun c => l.contains c || f c) = true := by
  rw [List.all_eq_true]
  intro c hc
  rw [Bool.or_eq_true]
  exact Or.inl (List.elem_eq_true_of_mem hc)

/-- Invariant: running store operations whose check-in moods come from the
code's `MoodType` union preserves the property that every stored check-in
mood is in that union. -/
theorem runOps_mood_invariant (ops : List StoreOp) (st : Store)
    (h1 : ∀ op ∈ ops, opMoodOk op = true)
    (h2 : ∀ c ∈ st.checkIns, moodTypeStrings.contains c.mood = true) :
    ∀ c ∈ (runOps st ops).checkIns, moodTypeStrings.contains c.mood = true := by
  induction ops generalizing st with
  | nil => exact h2
  | cons op rest ih =>
    refine ih (applyOp st op) (fun o ho => h1 o (List.mem_cons_of_mem _ ho)) ?_
    have hop := h1 op (List.mem_cons_self _ _)
    cases op with
    | checkIn id now mood syms =>
      intro c hc
      simp only [applyOp, addCheckIn, List.mem_cons] at hc
      rcases hc with rfl | hc
      · simpa [opMoodOk, mkCheckIn] using hop
      · exact h2 c hc
    | alert id now ty msg => exact fun c hc => h2 c hc
    | profile p => exact fun c hc => h2 c hc

/-- C1 (counterexample): a Light watcher trigger (brightness 0.9, cooldown
long elapsed, empty store) logs an `AlertEvent` whose type tag is
`manual_high_risk`, which differs from the tag `light` the claim
requires. -/
theorem light_alert_tag_counterexample :
    ((lightStep Store.empty 0 1000000 (9 / 10) "cid" "aid" true).store.alerts.map
        AlertEvent.type) = ["manual_high_risk"]
    ∧ ("manual_high_risk" : String) ≠ "light" := by
  constructor
  · rw [lightStep, if_pos ⟨by norm_num [VERY_BRIGHT_THRESHOLD],
      by norm_num [LIGHT_COOLDOWN_MS]⟩]
    rfl
  · decide

/-- C1 (amended): on every trigger, each watcher calls `logAlertEvent`
with its fixed human-readable message and a type tag, namely `shake` for
the Movement watcher and `manual_high_risk` for both the Noise and the
Light watcher. -/
theorem watcher_alert_tags (st : Store) (last now : Nat) (v : ℚ)
    (idC idA : String) (ok ok2 : Bool) :
    (SHAKE_THRESHOLD < v → SHAKE_COOLDOWN_MS < now - last →
      (shakeStep st last now v idC idA ok).store.alerts
        = mkAlertEvent idA now "shake" shakeAlertMessage :: st.alerts)
    ∧ (VERY_LOUD_THRESHOLD < v → NOISE_COOLDOWN_MS < now - last →
      (noiseStep st last now v idC idA ok ok2).store.alerts
        = mkAlertEvent idA now "manual_high_risk" noiseAlertMessage :: st.alerts)
    ∧ (VERY_BRIGHT_THRESHOLD ≤ v → LIGHT_COOLDOWN_MS < now - last →
      (lightStep st last now v idC idA ok).store.alerts
        = mkAlertEvent idA now "manual_high_risk" lightAlertMessage :: st.alerts) := by
  refine ⟨fun h1 h2 => ?_, fun h1 h2 => ?_, fun h1 h2 => ?_⟩
  · rw [shakeStep, if_pos ⟨h1, h2⟩]; rfl
  · rw [noiseStep, if_pos ⟨h1, h2⟩]; rfl
  · rw [lightStep, if_pos ⟨h1, h2⟩]; rfl

/-- Witness for C1's theorem at a concrete shake trigger. -/
theorem watcher_alert_tags_witness :
    SHAKE_THRESHOLD < (3 : ℚ) ∧ SHAKE_COOLDOWN_MS < 1000000 - 0
    ∧ (shakeStep Store.empty 0 1000000 3 "c" "a" true).store.alerts
        = [mkAlertEvent "a" 1000000 "shake" shakeAlertMessage] := by
  refine ⟨by norm_num [SHAKE_THRESHOLD], by norm_num [SHAKE_COOLDOWN_MS], ?_⟩
  have h := (watcher_alert_tags Store.empty 0 1000000 3 "c" "a" true true).1
    (by norm_num [SHAKE_THRESHOLD]) (by norm_num [SHAKE_COOLDOWN_MS])
  simpa [Store.empty] using h

/-- C2: for every sequence of `addCheckIn` calls from the empty store, the
check-in log equals the built entries in reverse call order (most recent
first) and its length is the call count; likewise for `logAlertEvent` and
the alert log. -/
theorem logs_newest_first (cs : List CheckInCall) (es : List AlertCall) :
    ((runAddCheckIns Store.empty cs).checkIns
        = (cs.map fun c => mkCheckIn c.id c.now c.mood c.symptoms).reverse
      ∧ (runAddCheckIns Store.empty cs).checkIns.length = cs.length)
    ∧ ((runLogAlertEvents Store.empty es).alerts
        = (es.map fun c => mkAlertEvent c.id c.now c.ty c.msg).reverse
      ∧ (runLogAlertEvents Store.empty es).alerts.length = es.length) := by
  have h1 := runAddCheckIns_checkIns_eq cs Store.empty
  have h2 := runLogAlertEvents_alerts_eq es Store.empty
  simp only [Store.empty, List.append_nil] at h1 h2 ⊢
  refine ⟨⟨h1, ?_⟩, h2, ?_⟩
  · rw [h1]; simp
  · rw [h2]; simp

/-- C3 (counterexample): with the previous shake trigger exactly 6 seconds
before the current sample (16000 − 10000 = 6000 ms) and magnitude 3 above
the threshold, the Movement watcher produces nothing, while the claim
requires exactly one CheckIn and AlertEvent at ≥ 6 seconds elapsed. -/
theorem shake_exact_cooldown_counterexample :
    SHAKE_COOLDOWN_MS ≤ 16000 - 10000
    ∧ SHAKE_THRESHOLD < 3
    ∧ (shakeStep Store.empty 10000 16000 3 "c" "a" true).store = Store.empty := by
  refine ⟨by norm_num [SHAKE_COOLDOWN_MS], by norm_num [SHAKE_THRESHOLD], ?_⟩
  have hn : ¬(SHAKE_THRESHOLD < (3 : ℚ)
      ∧ SHAKE_COOLDOWN_MS < 16000 - 10000) := by
    rintro ⟨-, h⟩
    norm_num [SHAKE_COOLDOWN_MS] at h
  rw [shakeStep, if_neg hn]

/-- C3 (amended): for a Movement sample above the threshold, nothing is
produced when at most 6000 ms have elapsed since the recorded
last-trigger time (initially 0), and exactly one CheckIn and one
AlertEvent are produced when strictly more than 6000 ms have elapsed. -/
theorem shake_cooldown_gate (st : Store) (last now : Nat) (total : ℚ)
    (idC idA : String) (ok : Bool) :
    (SHAKE_THRESHOLD < total → now - last ≤ SHAKE_COOLDOWN_MS →
      (shakeStep st last now total idC idA ok).store = st)
    ∧ (SHAKE_THRESHOLD < total → SHAKE_COOLDOWN_MS < now - last →
      (shakeStep st last now total idC idA ok).store.checkIns
        = mkCheckIn idC now "angry" shakeSymptoms :: st.checkIns
      ∧ (shakeStep st last now total idC idA ok).store.alerts
        = mkAlertEvent idA now "shake" shakeAlertMessage :: st.alerts) := by
  constructor
  · intro _ h2
    have hn : ¬(SHAKE_THRESHOLD < total ∧ SHAKE_COOLDOWN_MS < now - last) := by
      rintro ⟨-, h⟩
      exact absurd h (not_lt.mpr h2)
    rw [shakeStep, if_neg hn]
  · intro h1 h2
    rw [shakeStep, if_pos ⟨h1, h2⟩]
    exact ⟨rfl, rfl⟩

/-- Witness for C3's theorem: one blocked sample (5 s elapsed) and one
triggering sample (18 s elapsed). -/
theorem shake_cooldown_gate_witness :
    (SHAKE_THRESHOLD < (3 : ℚ) ∧ 7000 - 2000 ≤ SHAKE_COOLDOWN_MS
      ∧ (shakeStep Store.empty 2000 7000 3 "c" "a" true).store = Store.empty)
    ∧ (SHAKE_THRESHOLD < (3 : ℚ) ∧ SHAKE_COOLDOWN_MS < 20000 - 2000
      ∧ (shakeStep Store.empty 2000 20000 3 "c" "a" true).store.checkIns
          = [mkCheckIn "c" 20000 "angry" shakeSymptoms]) := by
  constructor
  · refine ⟨by norm_num [SHAKE_THRESHOLD], by norm_num [SHAKE_COOLDOWN_MS], ?_⟩
    exact (shake_cooldown_gate Store.empty 2000 7000 3 "c" "a" true).1
      (by norm_num [SHAKE_THRESHOLD]) (by norm_num [SHAKE_COOLDOWN_MS])
  · refine ⟨by norm_num [SHAKE_THRESHOLD], by norm_num [SHAKE_COOLDOWN_MS], ?_⟩
    have h := ((shake_cooldown_gate Store.empty 2000 20000 3 "c" "a" true).2
      (by norm_num [SHAKE_THRESHOLD]) (by norm_num [SHAKE_COOLDOWN_MS])).1
    simpa [Store.empty] using h

/-- C4 (counterexample): a brightness reading exactly equal to the 0.85
threshold does emit a CheckIn (the source guard is `>=`), while the claim
says a reading equal to 0.85 emits nothing. -/
theorem light_equal_threshold_counterexample :
    (85 / 100 : ℚ) = VERY_BRIGHT_THRESHOLD
    ∧ (lightStep Store.empty 0 1000000 (85 / 100) "c" "a" true).store.checkIns
        = [mkCheckIn "c" 1000000 "overwhelmed" lightSymptoms] := by
  constructor
  · norm_num [VERY_BRIGHT_THRESHOLD]
  · rw [lightStep, if_pos ⟨by norm_num [VERY_BRIGHT_THRESHOLD],
      by norm_num [LIGHT_COOLDOWN_MS]⟩]
    rfl

/-- C4 (amended): a Light sampling step emits nothing when the reading is
strictly below the 0.85 threshold, and emits exactly one CheckIn and one
AlertEvent when the reading is at least 0.85 and the cooldown has
elapsed. -/
theorem light_threshold_gate (st : Store) (last now : Nat) (level : ℚ)
    (idC idA : String) (ok : Bool) :
    (level < VERY_BRIGHT_THRESHOLD →
      lightStep st last now level idC idA ok = ⟨st, last, [], []⟩)
    ∧ (VERY_BRIGHT_THRESHOLD ≤ level → LIGHT_COOLDOWN_MS < now - last →
      (lightStep st last now level idC idA ok).store.checkIns
        = mkCheckIn idC now "overwhelmed" lightSymptoms :: st.checkIns
      ∧ (lightStep st last now level idC idA ok).store.alerts
        = mkAlertEvent idA now "manual_high_risk" lightAlertMessage
            :: st.alerts) := by
  constructor
  · intro h
    have hn : ¬(VERY_BRIGHT_THRESHOLD ≤ level
        ∧ LIGHT_COOLDOWN_MS < now - last) := by
      rintro ⟨h1, -⟩
      exact absurd h1 (not_le.mpr h)
    rw [lightStep, if_neg hn]
  · intro h1 h2
    rw [lightStep, if_pos ⟨h1, h2⟩]
    exact ⟨rfl, rfl⟩

/-- Witness for C4's theorem: a dim reading (0.5) emits nothing and a
bright reading (0.9) with elapsed cooldown emits the pair. -/
theorem light_threshold_gate_witness :
    ((1 / 2 : ℚ) < VERY_BRIGHT_THRESHOLD
      ∧ lightStep Store.empty 0 1000000 (1 / 2) "c" "a" true
          = ⟨Store.empty, 0, [], []⟩)
    ∧ (VERY_BRIGHT_THRESHOLD ≤ (9 / 10 : ℚ)
      ∧ LIGHT_COOLDOWN_MS < 1000000 - 0
      ∧ (lightStep Store.empty 0 1000000 (9 / 10) "c" "a" true).store.checkIns
          = [mkCheckIn "c" 1000000 "overwhelmed" lightSymptoms]) := by
  constructor
  · refine ⟨by norm_num [VERY_BRIGHT_THRESHOLD], ?_⟩
    exact (light_threshold_gate Store.empty 0 1000000 (1 / 2) "c" "a" true).1
      (by norm_num [VERY_BRIGHT_THRESHOLD])
  · refine ⟨by norm_num [VERY_BRIGHT_THRESHOLD],
      by norm_num [LIGHT_COOLDOWN_MS], ?_⟩
    have h := ((light_threshold_gate Store.empty 0 1000000 (9 / 10) "c" "a"
      true).2 (by norm_num [VERY_BRIGHT_THRESHOLD])
      (by norm_num [LIGHT_COOLDOWN_MS])).1
    simpa [Store.empty] using h

/-- C5: a Noise sampling window whose metered peak is below the loudness
threshold produces nothing at all — store untouched, no notifications —
whatever the cooldown state. -/
theorem noise_below_threshold_silent (st : Store) (last now : Nat)
    (maxLevel : ℚ) (idC idA : String) (ok ok2 : Bool)
    (h : maxLevel < VERY_LOUD_THRESHOLD) :
    noiseStep st last now maxLevel idC idA ok ok2 = ⟨st, last, [], []⟩ := by
  have hn : ¬(VERY_LOUD_THRESHOLD < maxLevel
      ∧ NOISE_COOLDOWN_MS < now - last) := by
    rintro ⟨h1, -⟩
    exact absurd h1 (not_lt.mpr h.le)
  rw [noiseStep, if_neg hn]

/-- Witness for C5's theorem: a quiet window (-20) with the cooldown long
elapsed still produces nothing. -/
theorem noise_below_threshold_silent_witness :
    (-20 : ℚ) < VERY_LOUD_THRESHOLD
    ∧ noiseStep Store.empty 0 1000000000 (-20) "c" "a" true true
        = ⟨Store.empty, 0, [], []⟩ :=
  ⟨by norm_num [VERY_LOUD_THRESHOLD],
   noise_below_threshold_silent Store.empty 0 1000000000 (-20) "c" "a"
     true true (by norm_num [VERY_LOUD_THRESHOLD])⟩

/-- C6 (counterexample): the check-in the code makes for the "I don't
know" choice (`addCheckIn("idk", ...)` in the check-in screen) is a legal
`MoodType` value, yet the stored mood is outside the spec's closed set
because that set spells the variant `unknown`. -/
theorem mood_idk_not_in_spec_set :
    opMoodOk (StoreOp.checkIn "1" 1 "idk" ["No body notes added this time"])
      = true
    ∧ ((runOps Store.empty
          [StoreOp.checkIn "1" 1 "idk" ["No body notes added this time"]]
        ).checkIns.all fun c => specMoodStrings.contains c.mood) = false := by
  constructor
  · decide
  · decide

/-- C6 (amended): after every sequence of store operations from the empty
store whose check-in moods are drawn from the code's `MoodType` union,
every stored check-in mood lies in the closed set
calm, okay, overwhelmed, angry, sad, idk. -/
theorem checkin_moods_in_code_set (ops : List StoreOp)
    (h : ∀ op ∈ ops, opMoodOk op = true) :
    ∀ c ∈ (runOps Store.empty ops).checkIns,
      moodTypeStrings.contains c.mood = true :=
  runOps_mood_invariant ops Store.empty h (by simp [Store.empty])

/-- Witness for C6's theorem at a concrete one-operation run. -/
theorem checkin_moods_in_code_set_witness :
    moodTypeStrings.contains (mkCheckIn "1" 2 "calm" []).mood = true :=
  checkin_moods_in_code_set [StoreOp.checkIn "1" 2 "calm" []] (by decide)
    (mkCheckIn "1" 2 "calm" []) (by decide)

/-- C7: the store state after a watcher step is independent of whether the
notification promises resolve or reject, and on a trigger the CheckIn and
AlertEvent are recorded even when every notification fails (shake and
noise watchers). -/
theorem notify_failure_no_rollback (st : Store) (last now : Nat)
    (total maxLevel : ℚ) (idC idA : String) :
    ((shakeStep st last now total idC idA false).store
        = (shakeStep st last now total idC idA true).store)
    ∧ ((noiseStep st last now maxLevel idC idA false false).store
        = (noiseStep st last now maxLevel idC idA true true).store)
    ∧ (SHAKE_THRESHOLD < total → SHAKE_COOLDOWN_MS < now - last →
        (shakeStep st last now total idC idA false).store.checkIns
          = mkCheckIn idC now "angry" shakeSymptoms :: st.checkIns
        ∧ (shakeStep st last now total idC idA false).store.alerts
          = mkAlertEvent idA now "shake" shakeAlertMessage :: st.alerts)
    ∧ (VERY_LOUD_THRESHOLD < maxLevel → NOISE_COOLDOWN_MS < now - last →
        (noiseStep st last now maxLevel idC idA false false).store.checkIns
          = mkCheckIn idC now "overwhelmed" noiseSymptoms :: st.checkIns
        ∧ (noiseStep st last now maxLevel idC idA false false).store.alerts
          = mkAlertEvent idA now "manual_high_risk" noiseAlertMessage
              :: st.alerts) := by
  refine ⟨?_, ?_, fun h1 h2 => ?_, fun h1 h2 => ?_⟩
  · by_cases h : SHAKE_THRESHOLD < total ∧ SHAKE_COOLDOWN_MS < now - last
    · rw [shakeStep, shakeStep, if_pos h, if_pos h]
    · rw [shakeStep, shakeStep, if_neg h, if_neg h]
  · by_cases h : VERY_LOUD_THRESHOLD < maxLevel
        ∧ NOISE_COOLDOWN_MS < now - last
    · rw [noiseStep, noiseStep, if_pos h, if_pos h]
    · rw [noiseStep, noiseStep, if_neg h, if_neg h]
  · rw [shakeStep, if_pos ⟨h1, h2⟩]
    exact ⟨rfl, rfl⟩
  · rw [noiseStep, if_pos ⟨h1, h2⟩]
    exact ⟨rfl, rfl⟩

/-- Witness for C7's theorem: a concrete shake trigger whose notification
rejects still records both entries. -/
theorem notify_failure_no_rollback_witness :
    SHAKE_THRESHOLD < (3 : ℚ) ∧ SHAKE_COOLDOWN_MS < 1000000 - 0
    ∧ (shakeStep Store.empty 0 1000000 3 "c" "a" false).store.checkIns
        = [mkCheckIn "c" 1000000 "angry" shakeSymptoms]
    ∧ (shakeStep Store.empty 0 1000000 3 "c" "a" false).store.alerts
        = [mkAlertEvent "a" 1000000 "shake" shakeAlertMessage] := by
  refine ⟨by norm_num [SHAKE_THRESHOLD], by norm_num [SHAKE_COOLDOWN_MS],
    ?_, ?_⟩
  · have h := ((notify_failure_no_rollback Store.empty 0 1000000 3 3
      "c" "a").2.2.1 (by norm_num [SHAKE_THRESHOLD])
      (by norm_num [SHAKE_COOLDOWN_MS])).1
    simpa [Store.empty] using h
  · have h := ((notify_failure_no_rollback Store.empty 0 1000000 3 3
      "c" "a").2.2.1 (by norm_num [SHAKE_THRESHOLD])
      (by norm_num [SHAKE_COOLDOWN_MS])).2
    simpa [Store.empty] using h

/-- C8: calling `setProfile` twice with the same value gives the same
store as calling it once, and a `setProfile` call touches neither the
check-in log nor the alert log. -/
theorem setProfile_idempotent (st : Store) (p : Option UserProfile) :
    setProfile (setProfile st p) p = setProfile st p
    ∧ (setProfile st p).checkIns = st.checkIns
    ∧ (setProfile st p).alerts = st.alerts :=
  ⟨rfl, rfl, rfl⟩

/-- C9: every check-in prepended by a watcher step is classified as
sensor-originated by `isSensorLike` — each check-in in the store after any
shake, noise, or light step is either a pre-existing entry or satisfies
the heuristic. -/
theorem watcher_checkins_sensor_like (st : Store) (last now : Nat) (v : ℚ)
    (idC idA : String) (ok ok2 : Bool) :
    ((shakeStep st last now v idC idA ok).store.checkIns.all
        fun c => st.checkIns.contains c || isSensorLike c) = true
    ∧ ((noiseStep st last now v idC idA ok ok2).store.checkIns.all
        fun c => st.checkIns.contains c || isSensorLike c) = true
    ∧ ((lightStep st last now v idC idA ok).store.checkIns.all
        fun c => st.checkIns.contains c || isSensorLike c) = true := by
  refine ⟨?_, ?_, ?_⟩
  · by_cases h : SHAKE_THRESHOLD < v ∧ SHAKE_COOLDOWN_MS < now - last
    · rw [shakeStep, if_pos h]
      show ((mkCheckIn idC now "angry" shakeSymptoms :: st.checkIns).all
          fun c => st.checkIns.contains c || isSensorLike c) = true
      simp only [List.all_cons, Bool.and_eq_true, Bool.or_eq_true]
      exact ⟨Or.inr rfl, all_contains_or st.checkIns isSensorLike⟩
    · rw [shakeStep, if_neg h]
      exact all_contains_or st.checkIns isSensorLike
  · by_cases h : VERY_LOUD_THRESHOLD < v ∧ NOISE_COOLDOWN_MS < now - last
    · rw [noiseStep, if_pos h]
      show ((mkCheckIn idC now "overwhelmed" noiseSymptoms :: st.checkIns).all
          fun c => st.checkIns.contains c || isSensorLike c) = true
      simp only [List.all_cons, Bool.and_eq_true, Bool.or_eq_true]
      exact ⟨Or.inr rfl, all_contains_or st.checkIns isSensorLike⟩
    · rw [noiseStep, if_neg h]
      exact all_contains_or st.checkIns isSensorLike
  · by_cases h : VERY_BRIGHT_THRESHOLD ≤ v ∧ LIGHT_COOLDOWN_MS < now - last
    · rw [lightStep, if_pos h]
      show ((mkCheckIn idC now "overwhelmed" lightSymptoms :: st.checkIns).all
          fun c => st.checkIns.contains c || isSensorLike c) = true
      simp only [List.all_cons, Bool.and_eq_true, Bool.or_eq_true]
      exact ⟨Or.inr rfl, all_contains_or st.checkIns isSensorLike⟩
    · rw [lightStep, if_neg h]
      exact all_contains_or st.checkIns isSensorLike

/-- C10: each Event Store operation mutates only its own field —
`addCheckIn` leaves the alert log and profile unchanged, `logAlertEvent`
leaves the check-in log and profile unchanged, and `setProfile` leaves
both logs unchanged. -/
theorem store_ops_frame (st : Store) (id : String) (now : Nat)
    (mood : String) (syms : List String) (ty msg : String)
    (p : Option UserProfile) :
    ((addCheckIn st id now mood syms).alerts = st.alerts
      ∧ (addCheckIn st id now mood syms).profile = st.profile)
    ∧ ((logAlertEvent st id now ty msg).checkIns = st.checkIns
      ∧ (logAlertEvent st id now ty msg).profile = st.profile)
    ∧ ((setProfile st p).checkIns = st.checkIns
      ∧ (setProfile st p).alerts = st.alerts) :=
  ⟨⟨rfl, rfl⟩, ⟨rfl, rfl⟩, ⟨rfl, rfl⟩⟩

end NeuroAura
